import Mathlib

/-!
Shallow embedding of the shopping-cart state container in
`src/components/shop/CartProvider.tsx`.

The source is a React context provider holding:
  * `cart : CartItem[]` (React state, initially `[]`),
  * `isCartOpen : boolean` (React state, initially `false`),
  * `loaded : boolean` (React state, initially `false`, set after hydration),
plus the browser `localStorage` under the fixed key `"cart"`.

Modelling choices:
  * JavaScript `number` is modelled as `ℚ` (exact arithmetic on the values the
    code manipulates: comparisons with 0, `+ 1`, `price * quantity`).
  * `localStorage` is modelled as the single cell under key `"cart"` together
    with three boolean failure switches, one per storage primitive
    (`getItem` / `setItem` / `removeItem` can each throw in a browser); a
    throwing primitive leaves the cell unchanged, matching the `try/catch`
    blocks in the source which log and continue.
  * The serialized text stored by `JSON.stringify` / read by `JSON.parse` is
    modelled one level up from raw strings: a stored value is either the
    serialization of a JSON value or unparsable text.  `JSON.parse` succeeds
    exactly on the former, which is the property of the real parser the code
    relies on.
  * A `product` argument that may be `null`/`undefined` at runtime is modelled
    as `Option Product`; the only falsy `string` is `""`.
-/

/-- JSON values, as produced by `JSON.parse` / consumed by `JSON.stringify`.
Numbers are modelled as `ℚ`. -/
inductive Json where
  | str (s : String)
  | num (q : ℚ)
  | bool (b : Bool)
  | null
  | arr (elems : List Json)
  | obj (fields : List (String × Json))

/-- A value stored under the `"cart"` key of `localStorage`: either the
serialization of a JSON value, or text that `JSON.parse` rejects (the spec's
example is the stored value `"not-an-array"`, which is not valid JSON). -/
inductive StorageText where
  | json (j : Json)
  | invalid (s : String)

/-- `JSON.parse` on a stored text: succeeds exactly on serialized JSON values. -/
def jsonParse : StorageText → Except Unit Json
  | .json j => .ok j
  | .invalid _ => .error ()

/-- The `localStorage` backend restricted to the key `"cart"`: the current
value of that cell plus one failure switch per primitive. -/
structure Storage where
  value : Option StorageText
  getThrows : Bool
  setThrows : Bool
  removeThrows : Bool

/-- `localStorage.setItem('cart', v)` inside the source's `try/catch`: a
throwing backend leaves the cell unchanged (the error is logged and swallowed). -/
def Storage.setItem (st : Storage) (v : StorageText) : Storage :=
  if st.setThrows then st else { st with value := some v }

/-- `localStorage.removeItem('cart')` inside `try/catch`: the cell is erased
unless the backend throws. -/
def Storage.removeItem (st : Storage) : Storage :=
  if st.removeThrows then st else { st with value := none }

/-- `localStorage.getItem('cart')`: returns the cell (or `null` = `none`),
or throws. -/
def Storage.getItem (st : Storage) : Except Unit (Option StorageText) :=
  if st.getThrows then .error () else .ok st.value

/-- The `CartItem` interface of the source: `id`, `name`, `price`,
`description`, optional `image`, `quantity`. -/
structure CartItem where
  id : String
  name : String
  price : ℚ
  description : String
  image : Option String
  quantity : ℚ
deriving DecidableEq

/-- `Omit<CartItem, 'quantity'>`: the argument of `addToCart`. -/
structure Product where
  id : String
  name : String
  price : ℚ
  description : String
  image : Option String
deriving DecidableEq

/-- `{ ...product, quantity: 1 }`: the new entry appended by `addToCart`. -/
def newItem (p : Product) : CartItem :=
  { id := p.id, name := p.name, price := p.price, description := p.description,
    image := p.image, quantity := 1 }

/-- The provider's state: the two exposed pieces of React state, the internal
`loaded` flag, and the storage backend the effects talk to. -/
structure SessionState where
  cart : List CartItem
  isCartOpen : Bool
  loaded : Bool
  storage : Storage

/-- `totalItems = cart.reduce((total, item) => total + item.quantity, 0)`. -/
def totalItems (cart : List CartItem) : ℚ :=
  cart.foldl (fun total item => total + item.quantity) 0

/-- `totalPrice = cart.reduce((total, item) => total + item.price * item.quantity, 0)`. -/
def totalPrice (cart : List CartItem) : ℚ :=
  cart.foldl (fun total item => total + item.price * item.quantity) 0

/-- The cart update performed by `addToCart`'s `setCart` callback:
`findIndex` for an entry with the product's `id`; if found (`!== -1`,
i.e. the index is in range), replace that entry by a copy with `quantity + 1`;
otherwise append `{ ...product, quantity: 1 }`. -/
def addToCartList (p : Product) (l : List CartItem) : List CartItem :=
  let idx := l.findIdx (fun item => item.id == p.id)
  if h : idx < l.length then
    l.set idx { l.get ⟨idx, h⟩ with quantity := (l.get ⟨idx, h⟩).quantity + 1 }
  else
    l ++ [newItem p]

/-- `addToCart(product)`: logs and returns on a missing product or falsy `id`
(`!product || !product.id`); otherwise updates the cart via `addToCartList`
and calls `setIsCartOpen(true)`. -/
def addToCart (product : Option Product) (s : SessionState) : SessionState :=
  match product with
  | none => s
  | some p =>
    if p.id = "" then s
    else { s with cart := addToCartList p s.cart, isCartOpen := true }

/-- `removeFromCart(id)`: no-op on a falsy `id`, otherwise
`prevCart.filter(item => item.id !== id)`. -/
def removeFromCart (id : String) (s : SessionState) : SessionState :=
  if id = "" then s
  else { s with cart := s.cart.filter (fun item => item.id != id) }

/-- `updateQuantity(id, quantity)`: no-op on a falsy `id`; delegates to
`removeFromCart` when `quantity <= 0`; otherwise maps the cart, setting the
matching entries' `quantity` to the given value. -/
def updateQuantity (id : String) (quantity : ℚ) (s : SessionState) : SessionState :=
  if id = "" then s
  else if quantity ≤ 0 then removeFromCart id s
  else
    let f := fun item =>
      if item.id == id then { item with quantity := quantity } else item
    { s with cart := s.cart.map f }

/-- `clearCart()`: `setCart([])`, then `localStorage.removeItem('cart')` in a
`try/catch` that logs and swallows a failure. -/
def clearCart (s : SessionState) : SessionState :=
  { s with cart := [], storage := s.storage.removeItem }

/-- `setIsCartOpen(isOpen)`: the exposed setter for the panel flag. -/
def setIsCartOpen (isOpen : Bool) (s : SessionState) : SessionState :=
  { s with isCartOpen := isOpen }

/-- `JSON.stringify` of one cart item: an object with the item's fields, the
`image` key omitted when the optional field is absent (`undefined` properties
are dropped by `JSON.stringify`). -/
def encodeItem (i : CartItem) : Json :=
  .obj ([("id", .str i.id), ("name", .str i.name), ("price", .num i.price),
         ("description", .str i.description)]
        ++ (match i.image with
            | some s => [("image", Json.str s)]
            | none => [])
        ++ [("quantity", .num i.quantity)])

/-- `JSON.stringify(cart)`: the serialized cart array. -/
def encodeCart (cart : List CartItem) : Json :=
  .arr (cart.map encodeItem)

/-- Property read on a parsed JSON object (`obj.id` etc.): the first field
with the given key, if any. -/
def Json.getField (j : Json) (key : String) : Option Json :=
  match j with
  | .obj fields => fields.lookup key
  | _ => none

/-- Reading a parsed property where the code expects a string; a missing or
non-string property is `undefined`-like, modelled by `""`. -/
def asString : Option Json → String
  | some (.str s) => s
  | _ => ""

/-- Reading a parsed property where the code expects a number; a missing or
non-number property is `undefined`-like, modelled by `0`. -/
def asNum : Option Json → ℚ
  | some (.num q) => q
  | _ => 0

/-- One element of a parsed array, viewed as a `CartItem`.  The source adopts
the parsed array verbatim with no per-item validation (the TypeScript cast to
`CartItem[]`); field access on such an element is JavaScript property access,
modelled by reading each declared field with an `undefined`-like default. -/
def decodeItemD (j : Json) : CartItem :=
  { id := asString (j.getField ("id")),
    name := asString (j.getField ("name")),
    price := asNum (j.getField ("price")),
    description := asString (j.getField ("description")),
    image := match j.getField ("image") with
             | some (.str s) => some s
             | _ => none,
    quantity := asNum (j.getField ("quantity")) }

/-- Truthiness of a stored text, for the source's `if (savedCart)` guard: a
JavaScript string is truthy exactly when it is non-empty.  `JSON.stringify`
output is never the empty string, so of the modelled texts only the
unparsable stored text `""` is falsy. -/
def StorageText.isTruthy : StorageText → Bool
  | .json _ => true
  | .invalid s => !(s == "")

/-- The hydration effect (the first `useEffect`): read the stored value; if it
is truthy (`if (savedCart)` — false for `null` and for the empty string, both
of which leave storage untouched), parse it; adopt a parsed array as the cart;
on a parsed non-array, reset the cart to `[]` and erase the key; on a parse or
read error, erase the key inside a nested `try/catch`; in every case
(`finally`) set `loaded`. -/
def hydrateEffect (s : SessionState) : SessionState :=
  let s' :=
    match s.storage.getItem with
    | .error _ => { s with storage := s.storage.removeItem }
    | .ok none => s
    | .ok (some text) =>
      if text.isTruthy then
        match jsonParse text with
        | .error _ => { s with storage := s.storage.removeItem }
        | .ok j =>
          match j with
          | .arr elems => { s with cart := elems.map decodeItemD }
          | _ => { s with cart := [], storage := s.storage.removeItem }
      else s
  { s' with loaded := true }

/-- The persistence effect (the second `useEffect`, keyed on `[cart, loaded]`):
once `loaded`, write `JSON.stringify(cart)` under `"cart"`, a failing write
being logged and swallowed. -/
def persistEffect (s : SessionState) : SessionState :=
  if s.loaded then { s with storage := s.storage.setItem (.json (encodeCart s.cart)) }
  else s

/-- The consumer-visible mutations whose sequences the invariants quantify
over. -/
inductive CartOp where
  | add (product : Option Product)
  | remove (id : String)
  | update (id : String) (quantity : ℚ)

/-- Dispatch one operation. -/
def applyOp (op : CartOp) (s : SessionState) : SessionState :=
  match op with
  | .add p => addToCart p s
  | .remove id => removeFromCart id s
  | .update id q => updateQuantity id q s

/-- One UI event: the handler runs, then the persistence effect fires on the
changed state. -/
def step (op : CartOp) (s : SessionState) : SessionState :=
  persistEffect (applyOp op s)

/-- A session: a sequence of UI events from a starting state. -/
def runOps (ops : List CartOp) (s : SessionState) : SessionState :=
  ops.foldl (fun s op => step op s) s

/-- The provider's initial React state over a given storage backend: empty
cart, closed panel, not yet hydrated. -/
def initSession (st : Storage) : SessionState :=
  { cart := [], isCartOpen := false, loaded := false, storage := st }

/-- Structural recursion equivalent of `addToCartList`, used as the induction
vehicle in proofs: bump the first entry whose `id` matches, append a fresh
entry when none does. -/
def addLoop (p : Product) : List CartItem → List CartItem
  | [] => [newItem p]
  | i :: rest =>
    if i.id == p.id then { i with quantity := i.quantity + 1 } :: rest
    else i :: addLoop p rest

/-- The cart invariant of the spec: pairwise-distinct `id`s and strictly
positive quantities. -/
def CartInv (c : List CartItem) : Prop :=
  (c.map (fun i => i.id)).Nodup ∧ ∀ i ∈ c, 0 < i.quantity

/-- A sample product used to instantiate theorems with hypotheses. -/
def demoProduct : Product :=
  { id := "p1", name := "Widget", price := 2, description := "d", image := none }

/-- The cart entry created by adding `demoProduct` to an empty cart. -/
def demoItem : CartItem := newItem demoProduct

/-- A second sample entry, with a populated `image` field. -/
def demoItem2 : CartItem :=
  { id := "p2", name := "Gadget", price := 3, description := "e",
    image := some ("img"), quantity := 2 }

/-- A storage backend holding nothing, with no failure switches set. -/
def okStorage : Storage :=
  { value := none, getThrows := false, setThrows := false, removeThrows := false }

/-- The rational 1/2, built by the `Rat` constructor so that concrete
evaluations reduce. -/
def halfQ : ℚ := ⟨1, 2, by decide, by decide⟩

/-- A session whose storage backend throws on both `setItem` and
`removeItem`, holding a persisted copy of a one-item cart. -/
def brokenSession : SessionState :=
  { cart := [demoItem], isCartOpen := false, loaded := true,
    storage := { value := some (.json (encodeCart [demoItem])),
                 getThrows := false, setThrows := true, removeThrows := true } }

/-- A session whose cart holds two distinct entries with the same `id`
(`"p1"`), as hydration can produce by adopting a stored sequence verbatim. -/
def dupSession : SessionState :=
  { cart := [demoItem, demoItem2, { demoItem with name := "Copy" }],
    isCartOpen := false, loaded := true, storage := okStorage }

/-- Generalized-accumulator form of the source's `reduce`. -/
theorem foldl_add_eq (f : CartItem → ℚ) (l : List CartItem) (a : ℚ) :
    l.foldl (fun total item => total + f item) a = a + (l.map f).sum := by
  induction l generalizing a with
  | nil => simp
  | cons i rest ih => simp [ih, add_assoc]

/-- C2: for every cart state, the derived `totalItems` equals the sum of the
`quantity` fields of all entries, and `totalPrice` equals the sum of
`price × quantity` over all entries. -/
theorem totals_are_sums (cart : List CartItem) :
    totalItems cart = (cart.map (fun i => i.quantity)).sum ∧
    totalPrice cart = (cart.map (fun i => i.price * i.quantity)).sum := by
  constructor
  · simpa using foldl_add_eq (fun i => i.quantity) cart 0
  · simpa using foldl_add_eq (fun i => i.price * i.quantity) cart 0

/-- `addToCartList` agrees with its structural form `addLoop`. -/
theorem addToCartList_eq_addLoop (p : Product) (l : List CartItem) :
    addToCartList p l = addLoop p l := by
  induction l with
  | nil => rfl
  | cons i rest ih =>
    by_cases h : (i.id == p.id) = true
    · simp [addToCartList, addLoop, List.findIdx_cons, h, List.set]
    · have hf : (i.id == p.id) = false := by simpa using h
      rw [addLoop, if_neg (by simp [hf]), ← ih]
      unfold addToCartList
      simp only [List.findIdx_cons, hf, cond_false]
      have hiff : List.findIdx (fun item => item.id == p.id) rest + 1 < (i :: rest).length ↔
          List.findIdx (fun item => item.id == p.id) rest < rest.length := by
        simp [List.length_cons]
      by_cases hn : List.findIdx (fun item => item.id == p.id) rest < rest.length
      · rw [dif_pos (hiff.mpr hn), dif_pos hn]
        simp [List.set, List.get_cons_succ]
      · rw [dif_neg (fun hcon => hn (hiff.mp hcon)), dif_neg hn]
        simp

/-- When no entry matches, `addLoop` appends the fresh entry at the end. -/
theorem addLoop_not_mem (p : Product) (l : List CartItem)
    (h : ∀ x ∈ l, x.id ≠ p.id) : addLoop p l = l ++ [newItem p] := by
  induction l with
  | nil => rfl
  | cons i rest ih =>
    have hf : (i.id == p.id) = false := by simpa using h i (by simp)
    simp [addLoop, hf, ih (fun x hx => h x (by simp [hx]))]

/-- `addLoop` bumps the first matching entry in place, preserving everything
else. -/
theorem addLoop_bump (p : Product) (pre post : List CartItem) (e : CartItem)
    (hpre : ∀ x ∈ pre, x.id ≠ p.id) (he : e.id = p.id) :
    addLoop p (pre ++ e :: post) = pre ++ { e with quantity := e.quantity + 1 } :: post := by
  induction pre with
  | nil => simp [addLoop, he]
  | cons i rest ih =>
    have hf : (i.id == p.id) = false := by simpa using hpre i (by simp)
    simp [addLoop, hf, ih (fun x hx => hpre x (by simp [hx]))]

/-- C3: for a product with a non-empty `id`, if the cart contains an entry
with that `id` then `addToCart` increments the first such entry's `quantity`
by 1, leaving its other fields and every other entry unchanged (the supplied
product's fields do not overwrite the entry); otherwise it appends
`{ ...product, quantity: 1 }` at the end, preserving existing order; in both
cases `isCartOpen` becomes true. -/
theorem addToCart_bumps_or_appends (p : Product) (s : SessionState) (hid : p.id ≠ "") :
    (∀ pre e post, s.cart = pre ++ e :: post → (∀ x ∈ pre, x.id ≠ p.id) → e.id = p.id →
        addToCart (some p) s =
          { s with cart := pre ++ { e with quantity := e.quantity + 1 } :: post,
                   isCartOpen := true }) ∧
    ((∀ x ∈ s.cart, x.id ≠ p.id) →
        addToCart (some p) s = { s with cart := s.cart ++ [newItem p], isCartOpen := true }) := by
  constructor
  · intro pre e post hc hpre he
    simp [addToCart, hid, addToCartList_eq_addLoop, hc, addLoop_bump p pre post e hpre he]
  · intro hall
    simp [addToCart, hid, addToCartList_eq_addLoop, addLoop_not_mem p s.cart hall]

/-- Witness for C3: adding `demoProduct` to a cart already holding it bumps
the entry's quantity and opens the panel. -/
theorem addToCart_bumps_or_appends_witness :
    addToCart (some demoProduct)
        { cart := [demoItem], isCartOpen := false, loaded := true, storage := okStorage } =
      { cart := [{ demoItem with quantity := demoItem.quantity + 1 }], isCartOpen := true,
        loaded := true, storage := okStorage } :=
  (addToCart_bumps_or_appends demoProduct
      { cart := [demoItem], isCartOpen := false, loaded := true, storage := okStorage }
      (by decide)).1 [] demoItem [] rfl (by simp) rfl

/-- The `id` trace of `addLoop`: unchanged when a match exists, extended by
the new `id` otherwise. -/
theorem map_id_addLoop (p : Product) (l : List CartItem) :
    (addLoop p l).map (fun i => i.id) =
      if l.any (fun i => i.id == p.id) then l.map (fun i => i.id)
      else l.map (fun i => i.id) ++ [p.id] := by
  induction l with
  | nil => simp [addLoop, newItem]
  | cons i rest ih =>
    by_cases h : (i.id == p.id) = true
    · simp [addLoop, h]
    · have hf : (i.id == p.id) = false := by simpa using h
      by_cases ha : rest.any (fun i => i.id == p.id) = true
      · simp [addLoop, hf, ih, ha]
      · have haf : rest.any (fun i => i.id == p.id) = false := by simpa using ha
        simp [addLoop, hf, ih, haf]

/-- `addLoop` preserves positivity of all quantities. -/
theorem addLoop_pos (p : Product) :
    ∀ l : List CartItem, (∀ i ∈ l, 0 < i.quantity) → ∀ i ∈ addLoop p l, 0 < i.quantity := by
  intro l
  induction l with
  | nil =>
    intro _ i hi
    simp [addLoop] at hi
    subst hi
    norm_num [newItem]
  | cons j rest ih =>
    intro hl i hi
    by_cases h : (j.id == p.id) = true
    · simp [addLoop, h] at hi
      rcases hi with hi | hi
      · subst hi
        have hj := hl j (by simp)
        show 0 < j.quantity + 1
        linarith
      · exact hl i (by simp [hi])
    · have hf : (j.id == p.id) = false := by simpa using h
      simp [addLoop, hf] at hi
      rcases hi with hi | hi
      · subst hi; exact hl i (by simp)
      · exact ih (fun x hx => hl x (by simp [hx])) i hi

/-- `addToCartList` preserves the cart invariant. -/
theorem cartInv_addToCartList (p : Product) (l : List CartItem) (h : CartInv l) :
    CartInv (addToCartList p l) := by
  rw [addToCartList_eq_addLoop]
  refine ⟨?_, addLoop_pos p l h.2⟩
  rw [map_id_addLoop]
  split
  · exact h.1
  · next hany =>
    have hnot : p.id ∉ l.map (fun i => i.id) := by
      intro hmem
      rw [List.mem_map] at hmem
      rcases hmem with ⟨x, hx, hxid⟩
      exact hany (List.any_eq_true.mpr ⟨x, hx, by simp [hxid]⟩)
    simp [List.nodup_append, h.1, hnot]

/-- `removeFromCart` preserves the cart invariant. -/
theorem cartInv_removeFromCart (id : String) (s : SessionState) (h : CartInv s.cart) :
    CartInv (removeFromCart id s).cart := by
  unfold removeFromCart
  split
  · exact h
  · refine ⟨?_, ?_⟩
    · exact List.Nodup.sublist ((List.filter_sublist s.cart).map (fun i => i.id)) h.1
    · intro i hi
      exact h.2 i (List.mem_filter.mp hi).1

/-- `updateQuantity` preserves the cart invariant. -/
theorem cartInv_updateQuantity (id : String) (q : ℚ) (s : SessionState) (h : CartInv s.cart) :
    CartInv (updateQuantity id q s).cart := by
  by_cases hid : id = ""
  · simpa [updateQuantity, hid] using h
  · by_cases hq : q ≤ 0
    · have he : updateQuantity id q s = removeFromCart id s := by
        simp [updateQuantity, hid, hq]
      rw [he]
      exact cartInv_removeFromCart id s h
    · refine ⟨?_, ?_⟩
      · have hmap : ((updateQuantity id q s).cart).map (fun i => i.id)
            = s.cart.map (fun i => i.id) := by
          simp only [updateQuantity, if_neg hid, if_neg hq]
          rw [List.map_map]
          apply List.map_congr_left
          intro x hx
          by_cases hxi : x.id = id <;> simp [hxi]
        rw [hmap]; exact h.1
      · intro i hi
        simp only [updateQuantity, if_neg hid, if_neg hq] at hi
        rw [List.mem_map] at hi
        rcases hi with ⟨j, hj, rfl⟩
        by_cases hxi : j.id = id
        · simpa [hxi] using not_le.mp hq
        · simpa [hxi] using h.2 j hj

/-- The persistence effect never changes the in-memory cart. -/
theorem persistEffect_cart (s : SessionState) : (persistEffect s).cart = s.cart := by
  unfold persistEffect; split <;> rfl

/-- One UI event preserves the cart invariant. -/
theorem cartInv_step (op : CartOp) (s : SessionState) (h : CartInv s.cart) :
    CartInv (step op s).cart := by
  rw [step, persistEffect_cart]
  cases op with
  | add po =>
    cases po with
    | none => exact h
    | some p =>
      by_cases hid : p.id = ""
      · simpa [applyOp, addToCart, hid] using h
      · simpa [applyOp, addToCart, hid] using cartInv_addToCartList p s.cart h
  | remove id => exact cartInv_removeFromCart id s h
  | update id q => exact cartInv_updateQuantity id q s h

/-- C1 (amended): for every sequence of `addToCart` / `removeFromCart` /
`updateQuantity` calls starting from the empty cart, the resulting cart never
contains two entries with the same `id`, and every entry's `quantity` is
strictly positive (never ≤ 0).  Integrality of quantities is not maintained by
the code: `updateQuantity` stores any positive number it is given (see the
counterexample). -/
theorem runOps_nodup_ids_and_pos_quantities (ops : List CartOp) (st : Storage) :
    ((runOps ops (initSession st)).cart.map (fun i => i.id)).Nodup ∧
    ∀ i ∈ (runOps ops (initSession st)).cart, 0 < i.quantity := by
  have key : ∀ (ops : List CartOp) (s : SessionState),
      CartInv s.cart → CartInv (runOps ops s).cart := by
    intro ops
    induction ops with
    | nil => intro s h; exact h
    | cons op rest ih => intro s h; exact ih (step op s) (cartInv_step op s h)
  exact key ops (initSession st) ⟨by simp [initSession], by simp [initSession]⟩

/-- Counterexample to C1 as stated: after `addToCart(p1)` followed by
`updateQuantity("p1", 1/2)`, the cart holds an entry whose quantity is the
positive non-integer 1/2, so quantities are not always positive integers. -/
theorem runOps_quantity_not_integer_cex :
    ¬ (∀ i ∈ (runOps [CartOp.add (some demoProduct), CartOp.update ("p1") halfQ]
          (initSession okStorage)).cart, 0 < i.quantity ∧ i.quantity.den = 1) := by
  decide

/-- C4: for every state, every non-empty `id` and every `quantity ≤ 0`,
`updateQuantity(id, quantity)` yields exactly the same resulting state as
`removeFromCart(id)`. -/
theorem updateQuantity_nonpos_is_remove (s : SessionState) (id : String) (q : ℚ)
    (hid : id ≠ "") (hq : q ≤ 0) :
    updateQuantity id q s = removeFromCart id s := by
  simp [updateQuantity, hid, hq]

/-- Witness for C4: `updateQuantity("p1", 0)` on a cart containing `p1` equals
`removeFromCart("p1")`. -/
theorem updateQuantity_nonpos_is_remove_witness :
    updateQuantity ("p1") 0
        { cart := [demoItem], isCartOpen := true, loaded := true, storage := okStorage }
      = removeFromCart ("p1")
        { cart := [demoItem], isCartOpen := true, loaded := true, storage := okStorage } :=
  updateQuantity_nonpos_is_remove
    { cart := [demoItem], isCartOpen := true, loaded := true, storage := okStorage }
    "p1" 0 (by decide) le_rfl

/-- C8: `addToCart` with an absent product or a falsy/empty `id` leaves the
entire state (in particular the cart and `isCartOpen`) unchanged; the failure
is only logged, no error reaches the caller. -/
theorem addToCart_invalid_is_noop (s : SessionState) (po : Option Product)
    (h : ∀ p, po = some p → p.id = "") : addToCart po s = s := by
  cases po with
  | none => rfl
  | some p => simp [addToCart, h p rfl]

/-- Witness for C8: adding a product with `id = ""` changes nothing. -/
theorem addToCart_invalid_is_noop_witness :
    addToCart (some { id := "", name := "n", price := 1, description := "", image := none })
        dupSession = dupSession :=
  addToCart_invalid_is_noop dupSession
    (some { id := "", name := "n", price := 1, description := "", image := none })
    (fun p hp => by cases hp; rfl)

/-- C9: for every cart (duplicate `id`s included, as hydration can produce)
and non-empty `id`, `removeFromCart` drops every entry whose `id` matches,
not just the first: membership in the result is membership in the old cart
with a different `id`, so no entry with the removed `id` remains. -/
theorem removeFromCart_removes_every_match (s : SessionState) (id : String) (hid : id ≠ "") :
    ∀ x, x ∈ (removeFromCart id s).cart ↔ (x ∈ s.cart ∧ x.id ≠ id) := by
  intro x
  simp [removeFromCart, hid, List.mem_filter]

/-- Witness for C9 on a cart holding two distinct entries with `id = "p1"`:
the second duplicate is also characterized (and hence removed). -/
theorem removeFromCart_removes_every_match_witness :
    ({ demoItem with name := "Copy" } ∈ (removeFromCart ("p1") dupSession).cart ↔
      ({ demoItem with name := "Copy" } ∈ dupSession.cart ∧
        ({ demoItem with name := "Copy" } : CartItem).id ≠ "p1")) :=
  removeFromCart_removes_every_match dupSession ("p1") (by decide) _

/-- C10: `removeFromCart`, `updateQuantity` and `clearCart` never change
`isCartOpen`; of the exposed operations only `addToCart` (see C3) and
`setIsCartOpen` (whose effect on the flag is recorded here) modify it. -/
theorem only_add_and_setter_touch_isCartOpen (s : SessionState) (id : String) (q : ℚ) (b : Bool) :
    (removeFromCart id s).isCartOpen = s.isCartOpen ∧
    (updateQuantity id q s).isCartOpen = s.isCartOpen ∧
    (clearCart s).isCartOpen = s.isCartOpen ∧
    (setIsCartOpen b s).isCartOpen = b := by
  refine ⟨?_, ?_, rfl, rfl⟩
  · unfold removeFromCart; split <;> rfl
  · unfold updateQuantity
    split
    · rfl
    · split
      · unfold removeFromCart; split <;> rfl
      · rfl

/-- C5 (amended): hydrating a fresh store from a truthy (non-empty) stored
value that is unparsable text or parses to a non-array resets the cart to
empty, erases the persisted key, and raises nothing (the handler is total:
every failure path is caught and logged); `loaded` is set by the `finally`
block.  A stored empty string is falsy, so `if (savedCart)` skips the whole
block and the key is kept (see the counterexample). -/
theorem hydrate_corrupt_self_heals (st : Storage) (t : StorageText)
    (hval : st.value = some t) (htruthy : t.isTruthy = true)
    (hbad : ∀ elems, jsonParse t ≠ .ok (.arr elems))
    (hget : st.getThrows = false) (hrem : st.removeThrows = false) :
    (hydrateEffect (initSession st)).cart = [] ∧
    (hydrateEffect (initSession st)).storage.value = none ∧
    (hydrateEffect (initSession st)).loaded = true := by
  have hg : (initSession st).storage.getItem = .ok (some t) := by
    simp [initSession, Storage.getItem, hget, hval]
  unfold hydrateEffect
  rw [hg]
  cases hp : jsonParse t with
  | error e => simp [hp, htruthy, initSession, Storage.removeItem, hrem]
  | ok j =>
    cases j <;> first
      | exact absurd hp (hbad _)
      | simp [hp, htruthy, initSession, Storage.removeItem, hrem]

/-- Counterexample to C5 as stated: the stored value `""` is unparsable text
(`JSON.parse("")` throws), yet the source's `if (savedCart)` truthiness guard
is false for the empty string, so hydration skips the block entirely and the
persisted key keeps its value instead of being erased. -/
theorem hydrate_empty_text_keeps_key_cex :
    (hydrateEffect (initSession
        { value := some (.invalid ("")), getThrows := false,
          setThrows := false, removeThrows := false })).storage.value
      = some (.invalid ("")) ∧
    (hydrateEffect (initSession
        { value := some (.invalid ("")), getThrows := false,
          setThrows := false, removeThrows := false })).storage.value ≠ none := by
  refine ⟨rfl, ?_⟩
  intro h
  rw [show (hydrateEffect (initSession
      { value := some (.invalid ("")), getThrows := false,
        setThrows := false, removeThrows := false })).storage.value
      = some (.invalid ("")) from rfl] at h
  exact absurd h (by simp)

/-- Witness for C5 (amended): hydrating from the truthy stored text
`"not-an-array"`. -/
theorem hydrate_corrupt_self_heals_witness :
    (hydrateEffect (initSession
        { value := some (.invalid ("not-an-array")), getThrows := false,
          setThrows := false, removeThrows := false })).cart = [] ∧
    (hydrateEffect (initSession
        { value := some (.invalid ("not-an-array")), getThrows := false,
          setThrows := false, removeThrows := false })).storage.value = none ∧
    (hydrateEffect (initSession
        { value := some (.invalid ("not-an-array")), getThrows := false,
          setThrows := false, removeThrows := false })).loaded = true :=
  hydrate_corrupt_self_heals _ (.invalid ("not-an-array")) rfl rfl (fun _ h => nomatch h) rfl rfl

/-- Decoding inverts encoding on genuine cart items. -/
theorem decodeItemD_encodeItem (i : CartItem) : decodeItemD (encodeItem i) = i := by
  rcases i with ⟨id, name, price, descr, image, q⟩
  cases image <;> rfl

/-- C6: persisting a non-empty cart and hydrating a fresh store instance from
the resulting storage reproduces an equal cart (same items, same quantities,
same order). -/
theorem persist_then_hydrate_roundtrip (c : List CartItem) (hc : c ≠ []) (o : Bool)
    (st : Storage) (hset : st.setThrows = false) (hget : st.getThrows = false) :
    (hydrateEffect (initSession
      (persistEffect { cart := c, isCartOpen := o, loaded := true, storage := st }).storage)).cart
      = c := by
  have hpersist :
      (persistEffect { cart := c, isCartOpen := o, loaded := true, storage := st }).storage
        = { st with value := some (.json (encodeCart c)) } := by
    simp [persistEffect, Storage.setItem, hset]
  rw [hpersist]
  have hg : (initSession { st with value := some (.json (encodeCart c)) }).storage.getItem
      = .ok (some (.json (encodeCart c))) := by
    simp [initSession, Storage.getItem, hget]
  unfold hydrateEffect
  rw [hg]
  simp only [StorageText.isTruthy, eq_self_iff_true, if_true, jsonParse, encodeCart,
    initSession, List.map_map]
  have hcomp : ∀ i ∈ c, (decodeItemD ∘ encodeItem) i = id i := fun i _ =>
    decodeItemD_encodeItem i
  rw [List.map_congr_left hcomp, List.map_id]

/-- Witness for C6 on the one-item cart `[demoItem2]`. -/
theorem persist_then_hydrate_roundtrip_witness :
    (hydrateEffect (initSession
      (persistEffect { cart := [demoItem2], isCartOpen := false, loaded := true,
                       storage := okStorage }).storage)).cart = [demoItem2] :=
  persist_then_hydrate_roundtrip [demoItem2] (by simp) false okStorage rfl rfl

/-- Counterexample to C7 as stated: on a backend whose erase and write both
throw, `clearCart` followed by the persist effect leaves the stale persisted
copy of the old cart in place — the key is neither absent nor cleared, even
though the in-memory cart is empty. -/
theorem clearCart_broken_storage_cex :
    (persistEffect (clearCart brokenSession)).cart = [] ∧
    (persistEffect (clearCart brokenSession)).storage.value
      = some (.json (encodeCart [demoItem])) ∧
    (persistEffect (clearCart brokenSession)).storage.value ≠ none ∧
    (persistEffect (clearCart brokenSession)).storage.value ≠ some (.json (encodeCart [])) := by
  have hv : (persistEffect (clearCart brokenSession)).storage.value
      = some (.json (encodeCart [demoItem])) := rfl
  refine ⟨rfl, hv, ?_, ?_⟩
  · rw [hv]; simp
  · rw [hv]
    intro h
    simp [encodeCart] at h

/-- C7 (amended): after `clearCart()` (with the persist-on-change effect that
follows it) the in-memory cart is unconditionally empty and no error reaches
the caller (every storage failure is caught and logged); the persisted key is
absent or cleared to the encoding of the empty cart provided the storage erase
succeeds or the follow-up persist write succeeds — if both throw, the key
retains its previous value. -/
theorem clearCart_then_persist_spec (s : SessionState)
    (h : s.storage.removeThrows = false ∨ (s.loaded = true ∧ s.storage.setThrows = false)) :
    (persistEffect (clearCart s)).cart = [] ∧
    ((persistEffect (clearCart s)).storage.value = none ∨
      (persistEffect (clearCart s)).storage.value = some (.json (encodeCart []))) := by
  refine ⟨by rw [persistEffect_cart]; rfl, ?_⟩
  by_cases hl : s.loaded = true
  · by_cases hs : s.storage.setThrows = true
    · rcases h with hr | ⟨_, hs2⟩
      · left
        simp [persistEffect, clearCart, Storage.setItem, Storage.removeItem, hl, hs, hr]
      · exact absurd hs2 (by simp [hs])
    · have hs' : s.storage.setThrows = false := by simpa using hs
      right
      by_cases hr : s.storage.removeThrows = true
      · simp [persistEffect, clearCart, Storage.setItem, Storage.removeItem, encodeCart,
              hl, hs', hr]
      · have hr' : s.storage.removeThrows = false := by simpa using hr
        simp [persistEffect, clearCart, Storage.setItem, Storage.removeItem, encodeCart,
              hl, hs', hr']
  · rcases h with hr | ⟨hl2, _⟩
    · left
      simp [persistEffect, clearCart, Storage.removeItem, hl, hr]
    · exact absurd hl2 hl

/-- Witness for C7 (amended) on a healthy backend. -/
theorem clearCart_then_persist_spec_witness :
    (persistEffect (clearCart dupSession)).cart = [] ∧
    ((persistEffect (clearCart dupSession)).storage.value = none ∨
      (persistEffect (clearCart dupSession)).storage.value = some (.json (encodeCart []))) :=
  clearCart_then_persist_spec dupSession (Or.inl rfl)
